import Mathlib

/-!
Verification of the AST representation layer `src/mair/parse/ast.rs`.

The Rust data types are embedded shallowly: `Vec<T>` becomes `List T`,
`Option<T>` becomes `Option T`, `Box<T>` becomes `T` (the box is only a
heap indirection), `&'a str` and `String` become `String`, and the derived
`PartialEq` implementations become explicit `beq` functions.  The only
place where the derived `PartialEq` differs from structural equality is
the floating-point payload of `Literal::FloatLike` (IEEE equality, under
which `NaN` is unequal to itself); every type that can contain a literal
therefore gets a hand-written `beq` mirroring the derive, while the
float-free types use decidable structural equality, which coincides with
their derived `PartialEq`.
-/

namespace ast

/-- Modelled from the spec: `imax` is imported from the parent module
(`super::{imax, fmax}`), which is not part of the sources shown.  The spec
describes it as "a maximal-width signed integer value", so it is embedded
as `Int`. -/
abbrev imax : Type := Int

/-- Modelled from the spec: `fmax` is imported from the parent module and
described as "a maximal-width floating value".  Only its IEEE equality
semantics matter here: a value is either NaN or a finite value, NaN
compares unequal to everything (itself included), and non-NaN values
compare by value.  The carrier of non-NaN values is abstracted to `Int`;
only its decidable equality is used. -/
structure fmax : Type where
  isNaN : Bool
  val   : Int
  deriving DecidableEq

/-- The IEEE partial equality on `fmax`: `NaN` is unequal to everything,
other values compare by value.  This is the `PartialEq` used by the derived
equality of `Literal`. -/
def fmax.beq (a b : fmax) : Bool :=
  !a.isNaN && !b.isNaN && a.val == b.val

/-- Modelled from the spec: `KeywordType` comes from `super::lexer`, which
is not part of the sources shown.  The spec only requires it to be the
scanner's closed keyword-tag enumeration with decidable equality, so it is
embedded as an abstract tag carried by a natural number. -/
abbrev KeywordType : Type := Nat

mutual

inductive Ty : Type where
  | Hole : Ty
  | Diverging : Ty
  | Apply (a : TyApply) : Ty
  | Tuple (tys : List Ty) : Ty
  | Func (args : List Ty) (ret : Ty) : Ty
  | Ref (is_mut : Bool) (lifetime : Option String) (inner : Ty) : Ty
  | Ptr (is_mut : Bool) (inner : Ty) : Ty

inductive TyApply : Type where
  | mk (name : Path) (lifetimes : List String) (params : List Ty) : TyApply

inductive Path : Type where
  | mk (is_absolute : Bool) (comps : List PathComp) : Path

inductive PathComp : Type where
  | mk (body : String) (hint : Option (List Ty)) : PathComp

end

/-- `TraitName` is an alias of `TyApply` in the source. -/
abbrev TraitName : Type := TyApply

mutual

def Ty.beq : Ty → Ty → Bool
  | .Hole, .Hole => true
  | .Diverging, .Diverging => true
  | .Apply a, .Apply b => TyApply.beq a b
  | .Tuple xs, .Tuple ys => Ty.beqList xs ys
  | .Func as r, .Func bs s => Ty.beqList as bs && Ty.beq r s
  | .Ref m l i, .Ref m' l' i' => m == m' && l == l' && Ty.beq i i'
  | .Ptr m i, .Ptr m' i' => m == m' && Ty.beq i i'
  | _, _ => false

def Ty.beqList : List Ty → List Ty → Bool
  | [], [] => true
  | x :: xs, y :: ys => Ty.beq x y && Ty.beqList xs ys
  | _, _ => false

def Ty.beqOptList : Option (List Ty) → Option (List Ty) → Bool
  | none, none => true
  | some xs, some ys => Ty.beqList xs ys
  | _, _ => false

def TyApply.beq : TyApply → TyApply → Bool
  | .mk n ls ps, .mk n' ls' ps' => Path.beq n n' && ls == ls' && Ty.beqList ps ps'

def Path.beq : Path → Path → Bool
  | .mk a cs, .mk a' cs' => a == a' && PathComp.beqList cs cs'

def PathComp.beq : PathComp → PathComp → Bool
  | .mk b h, .mk b' h' => b == b' && Ty.beqOptList h h'

def PathComp.beqList : List PathComp → List PathComp → Bool
  | [], [] => true
  | x :: xs, y :: ys => PathComp.beq x y && PathComp.beqList xs ys
  | _, _ => false

def Ty.beqOpt : Option Ty → Option Ty → Bool
  | none, none => true
  | some a, some b => Ty.beq a b
  | _, _ => false

end

/-- `Ty::from_path` from the source: wrap a path in `Ty::Apply` with empty
lifetime and parameter lists. -/
def Ty.from_path (path : Path) : Ty :=
  Ty.Apply (TyApply.mk path [] [])

/-- `Ty::from_name` from the source: a relative path with one hint-free
component. -/
def Ty.from_name (name : String) : Ty :=
  Ty.from_path (Path.mk false [PathComp.mk name none])

/-- `Ty::unit` from the source: the empty tuple type. -/
def Ty.unit : Ty :=
  Ty.Tuple []

/-- `Literal` from the source: char, string, integer and float literals,
numeric ones with an optional type suffix. -/
inductive Literal : Type where
  | CharLike (is_byte : Bool) (ch : Char) : Literal
  | StrLike (is_bytestr : Bool) (s : String) : Literal
  | IntLike (ty : Option Ty) (val : imax) : Literal
  | FloatLike (ty : Option Ty) (val : fmax) : Literal

/-- `Attr` from the source: a flag, a key-value pair, or a name with
nested sub-attributes. -/
inductive Attr : Type where
  | Flag (name : String) : Attr
  | Value (key : String) (value : Literal) : Attr
  | Sub (name : String) (args : List Attr) : Attr

/-- `Delimiter` from the source. -/
inductive Delimiter : Type where
  | Paren : Delimiter
  | Bracket : Delimiter
  | Brace : Delimiter
  deriving DecidableEq

/-- `Token` from the source: one lexeme or a delimited token tree. -/
inductive Token : Type where
  | Delimited (delim : Delimiter) (tts : List Token) : Token
  | InnerDoc (doc : String) : Token
  | OuterDoc (doc : String) : Token
  | Keyword (kw : KeywordType) : Token
  | Ident (name : String) : Token
  | Lifetime (name : String) : Token
  | Symbol (sym : String) : Token
  | Literal (lit : ast.Literal) : Token

/-- `FuncBody` from the source: a raw token sequence. -/
abbrev FuncBody : Type := List Token

/-- `Expr` from the source: a raw token sequence. -/
abbrev Expr : Type := List Token

/-- `TraitBound` from the source, a positional (tuple) struct
`TraitBound(Ty, Vec<TraitName>)`; `fst`/`snd` mirror the positions. -/
structure TraitBound : Type where
  fst : Ty
  snd : List TraitName

/-- `Template` from the source. -/
structure Template : Type where
  lifetimes : List String
  tys : List String
  trait_bounds : List TraitBound

/-- `SelfArg` from the source: the three receiver-binding modes. -/
inductive SelfArg : Type where
  | Static : SelfArg
  | Consume (is_mut : Bool) : SelfArg
  | Ref (is_mut : Bool) : SelfArg
  deriving DecidableEq

/-- `FuncArg` from the source. -/
structure FuncArg : Type where
  name : String
  ty : Ty

/-- `FuncSig` from the source. -/
structure FuncSig : Type where
  name : String
  templ : Template
  self_arg : SelfArg
  args : List FuncArg

/-- `UseName` from the source. -/
structure UseName : Type where
  name : String
  «alias» : Option String
  deriving DecidableEq

/-- `ExternFuncDecl` from the source. -/
structure ExternFuncDecl : Type where
  sig : FuncSig
  is_pub : Bool
  attrs : List Attr

/-- `StructTupleElem` from the source. -/
structure StructTupleElem : Type where
  is_pub : Bool
  attrs : List Attr
  ty : Ty

/-- `StructField` from the source. -/
structure StructField : Type where
  name : String
  is_pub : Bool
  attrs : List Attr
  ty : Ty

/-- `EnumVar` from the source: unit, tuple-like and struct-like variants. -/
inductive EnumVar : Type where
  | Unit (name : String) (attrs : List Attr) : EnumVar
  | Tuple (name : String) (attrs : List Attr) (elems : List StructTupleElem) : EnumVar
  | Struct (name : String) (attrs : List Attr) (fields : List StructField) : EnumVar

/-- `TraitItem` from the source: an associated type or function inside a
`trait` block. -/
inductive TraitItem : Type where
  | «Type» (name : String) (attrs : List Attr) (trait_bounds : List TraitName)
      (default : Option Ty) : TraitItem
  | Func (sig : FuncSig) (attrs : List Attr) (default : Option FuncBody) : TraitItem

/-- `ImplItem` from the source: an associated type or function inside an
`impl` block. -/
inductive ImplItem : Type where
  | «Type» (name : String) (attrs : List Attr) (val : Ty) : ImplItem
  | Func (sig : FuncSig) (attrs : List Attr) (body : FuncBody) : ImplItem

mutual

inductive Item : Type where
  | mk (is_pub : Bool) (attrs : List Attr) (detail : ItemKind) : Item

inductive ItemKind : Type where
  | ExternCrate (name : String) : ItemKind
  | UseAll (path : Path) : ItemKind
  | UseSome (path : Path) (names : List UseName) : ItemKind
  | Mod (name : String) (items : Option (List Item)) : ItemKind
  | Func (sig : FuncSig) (body : FuncBody) : ItemKind
  | Extern (abi : Option String) (decls : List ExternFuncDecl) : ItemKind
  | «Type» («alias» : String) (templ : Template) (origin : Ty) : ItemKind
  | StructUnit (name : String) (templ : Template) : ItemKind
  | StructTuple (name : String) (templ : Template) (elems : List StructTupleElem) : ItemKind
  | StructNormal (name : String) (templ : Template) (fields : List StructField) : ItemKind
  | Enum (name : String) (templ : Template) (vars : List EnumVar) : ItemKind
  | Const (name : String) (ty : Ty) (val : Expr) : ItemKind
  | Static (name : String) (ty : Ty) (val : Expr) : ItemKind
  | Trait (name : String) (templ : Template) (items : List TraitItem) : ItemKind
  | ImplType (templ : Template) (ty_for : Ty) (items : List ImplItem) : ItemKind
  | ImplTrait (templ : Template) (tr_name : TraitName) (ty_for : Ty)
      (items : List ImplItem) : ItemKind

end

/-- `ModInner` from the source: a module or crate root. -/
structure ModInner : Type where
  attrs : List Attr
  items : List Item

/-- Pointwise equality of lists, as the derived `PartialEq` of `Vec<T>`
uses the element equality. -/
def beqListWith {α : Type} (f : α → α → Bool) : List α → List α → Bool
  | [], [] => true
  | x :: xs, y :: ys => f x y && beqListWith f xs ys
  | _, _ => false

/-- Pointwise equality of options, as the derived `PartialEq` of
`Option<T>` uses the element equality. -/
def beqOptionWith {α : Type} (f : α → α → Bool) : Option α → Option α → Bool
  | none, none => true
  | some a, some b => f a b
  | _, _ => false

/-- Derived `PartialEq` of `TraitBound`. -/
def TraitBound.beq (a b : TraitBound) : Bool :=
  Ty.beq a.fst b.fst && beqListWith TyApply.beq a.snd b.snd

/-- Derived `PartialEq` of `Template`. -/
def Template.beq (a b : Template) : Bool :=
  a.lifetimes == b.lifetimes && a.tys == b.tys &&
    beqListWith TraitBound.beq a.trait_bounds b.trait_bounds

/-- Derived `PartialEq` of `SelfArg`. -/
def SelfArg.beq : SelfArg → SelfArg → Bool
  | .Static, .Static => true
  | .Consume m, .Consume m' => m == m'
  | .Ref m, .Ref m' => m == m'
  | _, _ => false

/-- Derived `PartialEq` of `FuncArg`. -/
def FuncArg.beq (a b : FuncArg) : Bool :=
  a.name == b.name && Ty.beq a.ty b.ty

/-- Derived `PartialEq` of `FuncSig`. -/
def FuncSig.beq (a b : FuncSig) : Bool :=
  a.name == b.name && Template.beq a.templ b.templ &&
    SelfArg.beq a.self_arg b.self_arg && beqListWith FuncArg.beq a.args b.args

/-- Derived `PartialEq` of `UseName`. -/
def UseName.beq (a b : UseName) : Bool :=
  a.name == b.name && a.alias == b.alias

/-- Derived `PartialEq` of `Literal`: pointwise, with IEEE equality on the
float payload (so a `NaN` payload makes a `FloatLike` unequal to itself). -/
def Literal.beq : Literal → Literal → Bool
  | .CharLike b c, .CharLike b' c' => b == b' && decide (c = c')
  | .StrLike b s, .StrLike b' s' => b == b' && s == s'
  | .IntLike t v, .IntLike t' v' => Ty.beqOpt t t' && v == v'
  | .FloatLike t v, .FloatLike t' v' => Ty.beqOpt t t' && fmax.beq v v'
  | _, _ => false

/-- The non-NaN precondition on a literal: the payload of a `FloatLike`
literal is not NaN. -/
def Literal.noNaN : Literal → Bool
  | .FloatLike _ v => !v.isNaN
  | _ => true

mutual

def Attr.beq : Attr → Attr → Bool
  | .Flag n, .Flag n' => n == n'
  | .Value k v, .Value k' v' => k == k' && Literal.beq v v'
  | .Sub n xs, .Sub n' ys => n == n' && Attr.beqList xs ys
  | _, _ => false

def Attr.beqList : List Attr → List Attr → Bool
  | [], [] => true
  | x :: xs, y :: ys => Attr.beq x y && Attr.beqList xs ys
  | _, _ => false

end

mutual

def Attr.noNaN : Attr → Bool
  | .Flag _ => true
  | .Value _ v => Literal.noNaN v
  | .Sub _ xs => Attr.noNaNList xs

def Attr.noNaNList : List Attr → Bool
  | [] => true
  | x :: xs => Attr.noNaN x && Attr.noNaNList xs

end

mutual

def Token.beq : Token → Token → Bool
  | .Delimited d ts, .Delimited d' ts' => decide (d = d') && Token.beqList ts ts'
  | .InnerDoc s, .InnerDoc s' => s == s'
  | .OuterDoc s, .OuterDoc s' => s == s'
  | .Keyword k, .Keyword k' => k == k'
  | .Ident s, .Ident s' => s == s'
  | .Lifetime s, .Lifetime s' => s == s'
  | .Symbol s, .Symbol s' => s == s'
  | .Literal l, .Literal l' => Literal.beq l l'
  | _, _ => false

def Token.beqList : List Token → List Token → Bool
  | [], [] => true
  | x :: xs, y :: ys => Token.beq x y && Token.beqList xs ys
  | _, _ => false

end

mutual

def Token.noNaN : Token → Bool
  | .Delimited _ ts => Token.noNaNList ts
  | .Literal l => Literal.noNaN l
  | _ => true

def Token.noNaNList : List Token → Bool
  | [] => true
  | x :: xs => Token.noNaN x && Token.noNaNList xs

end

/-- Derived `PartialEq` of `ExternFuncDecl`. -/
def ExternFuncDecl.beq (a b : ExternFuncDecl) : Bool :=
  FuncSig.beq a.sig b.sig && a.is_pub == b.is_pub && Attr.beqList a.attrs b.attrs

def ExternFuncDecl.noNaN (a : ExternFuncDecl) : Bool :=
  Attr.noNaNList a.attrs

/-- Derived `PartialEq` of `StructTupleElem`. -/
def StructTupleElem.beq (a b : StructTupleElem) : Bool :=
  a.is_pub == b.is_pub && Attr.beqList a.attrs b.attrs && Ty.beq a.ty b.ty

def StructTupleElem.noNaN (a : StructTupleElem) : Bool :=
  Attr.noNaNList a.attrs

/-- Derived `PartialEq` of `StructField`. -/
def StructField.beq (a b : StructField) : Bool :=
  a.name == b.name && a.is_pub == b.is_pub && Attr.beqList a.attrs b.attrs &&
    Ty.beq a.ty b.ty

def StructField.noNaN (a : StructField) : Bool :=
  Attr.noNaNList a.attrs

/-- Derived `PartialEq` of `EnumVar`. -/
def EnumVar.beq : EnumVar → EnumVar → Bool
  | .Unit n a, .Unit n' a' => n == n' && Attr.beqList a a'
  | .Tuple n a es, .Tuple n' a' es' =>
      n == n' && Attr.beqList a a' && beqListWith StructTupleElem.beq es es'
  | .Struct n a fs, .Struct n' a' fs' =>
      n == n' && Attr.beqList a a' && beqListWith StructField.beq fs fs'
  | _, _ => false

def EnumVar.noNaN : EnumVar → Bool
  | .Unit _ a => Attr.noNaNList a
  | .Tuple _ a es => Attr.noNaNList a && es.all StructTupleElem.noNaN
  | .Struct _ a fs => Attr.noNaNList a && fs.all StructField.noNaN

/-- Derived `PartialEq` of `TraitItem`. -/
def TraitItem.beq : TraitItem → TraitItem → Bool
  | .«Type» n a tb d, .«Type» n' a' tb' d' =>
      n == n' && Attr.beqList a a' && beqListWith TyApply.beq tb tb' &&
        Ty.beqOpt d d'
  | .Func s a d, .Func s' a' d' =>
      FuncSig.beq s s' && Attr.beqList a a' && beqOptionWith Token.beqList d d'
  | _, _ => false

def TraitItem.noNaN : TraitItem → Bool
  | .«Type» _ a _ _ => Attr.noNaNList a
  | .Func _ a d => Attr.noNaNList a && d.all Token.noNaNList

/-- Derived `PartialEq` of `ImplItem`. -/
def ImplItem.beq : ImplItem → ImplItem → Bool
  | .«Type» n a v, .«Type» n' a' v' =>
      n == n' && Attr.beqList a a' && Ty.beq v v'
  | .Func s a b, .Func s' a' b' =>
      FuncSig.beq s s' && Attr.beqList a a' && Token.beqList b b'
  | _, _ => false

def ImplItem.noNaN : ImplItem → Bool
  | .«Type» _ a _ => Attr.noNaNList a
  | .Func _ a b => Attr.noNaNList a && Token.noNaNList b

mutual

def Item.beq : Item → Item → Bool
  | .mk p a d, .mk p' a' d' =>
      p == p' && Attr.beqList a a' && ItemKind.beq d d'

def ItemKind.beq : ItemKind → ItemKind → Bool
  | .ExternCrate n, .ExternCrate n' => n == n'
  | .UseAll p, .UseAll p' => Path.beq p p'
  | .UseSome p ns, .UseSome p' ns' =>
      Path.beq p p' && beqListWith UseName.beq ns ns'
  | .Mod n its, .Mod n' its' => n == n' && Item.beqOptList its its'
  | .Func s b, .Func s' b' => FuncSig.beq s s' && Token.beqList b b'
  | .Extern a ds, .Extern a' ds' =>
      a == a' && beqListWith ExternFuncDecl.beq ds ds'
  | .«Type» al t o, .«Type» al' t' o' =>
      al == al' && Template.beq t t' && Ty.beq o o'
  | .StructUnit n t, .StructUnit n' t' => n == n' && Template.beq t t'
  | .StructTuple n t es, .StructTuple n' t' es' =>
      n == n' && Template.beq t t' && beqListWith StructTupleElem.beq es es'
  | .StructNormal n t fs, .StructNormal n' t' fs' =>
      n == n' && Template.beq t t' && beqListWith StructField.beq fs fs'
  | .Enum n t vs, .Enum n' t' vs' =>
      n == n' && Template.beq t t' && beqListWith EnumVar.beq vs vs'
  | .Const n ty v, .Const n' ty' v' =>
      n == n' && Ty.beq ty ty' && Token.beqList v v'
  | .Static n ty v, .Static n' ty' v' =>
      n == n' && Ty.beq ty ty' && Token.beqList v v'
  | .Trait n t its, .Trait n' t' its' =>
      n == n' && Template.beq t t' && beqListWith TraitItem.beq its its'
  | .ImplType t tf its, .ImplType t' tf' its' =>
      Template.beq t t' && Ty.beq tf tf' && beqListWith ImplItem.beq its its'
  | .ImplTrait t tn tf its, .ImplTrait t' tn' tf' its' =>
      Template.beq t t' && TyApply.beq tn tn' && Ty.beq tf tf' &&
        beqListWith ImplItem.beq its its'
  | _, _ => false

def Item.beqList : List Item → List Item → Bool
  | [], [] => true
  | x :: xs, y :: ys => Item.beq x y && Item.beqList xs ys
  | _, _ => false

def Item.beqOptList : Option (List Item) → Option (List Item) → Bool
  | none, none => true
  | some xs, some ys => Item.beqList xs ys
  | _, _ => false

end

mutual

def Item.noNaN : Item → Bool
  | .mk _ a d => Attr.noNaNList a && ItemKind.noNaN d

def ItemKind.noNaN : ItemKind → Bool
  | .ExternCrate _ => true
  | .UseAll _ => true
  | .UseSome _ _ => true
  | .Mod _ its => Item.noNaNOptList its
  | .Func _ b => Token.noNaNList b
  | .Extern _ ds => ds.all ExternFuncDecl.noNaN
  | .«Type» _ _ _ => true
  | .StructUnit _ _ => true
  | .StructTuple _ _ es => es.all StructTupleElem.noNaN
  | .StructNormal _ _ fs => fs.all StructField.noNaN
  | .Enum _ _ vs => vs.all EnumVar.noNaN
  | .Const _ _ v => Token.noNaNList v
  | .Static _ _ v => Token.noNaNList v
  | .Trait _ _ its => its.all TraitItem.noNaN
  | .ImplType _ _ its => its.all ImplItem.noNaN
  | .ImplTrait _ _ _ its => its.all ImplItem.noNaN

def Item.noNaNList : List Item → Bool
  | [] => true
  | x :: xs => Item.noNaN x && Item.noNaNList xs

def Item.noNaNOptList : Option (List Item) → Bool
  | none => true
  | some xs => Item.noNaNList xs

end

/-- Derived `PartialEq` of `ModInner`. -/
def ModInner.beq (a b : ModInner) : Bool :=
  Attr.beqList a.attrs b.attrs && Item.beqList a.items b.items

def ModInner.noNaN (a : ModInner) : Bool :=
  Attr.noNaNList a.attrs && Item.noNaNList a.items

/-- Modelled from the spec: the literal-construction helper for float
literals belongs to the out-of-scope lexer/grammar engine; per the spec it
must reject a NaN source value before any `Literal::FloatLike` node is
produced. -/
def mkFloatLiteral (ty : Option Ty) (v : fmax) : Option Literal :=
  if v.isNaN then none else some (Literal.FloatLike ty v)

/-- The discriminant of an `ItemKind` value: which of the 16 declaration
shapes it is. -/
def ItemKind.tag : ItemKind → Fin 16
  | .ExternCrate _ => 0
  | .UseAll _ => 1
  | .UseSome _ _ => 2
  | .Mod _ _ => 3
  | .Func _ _ => 4
  | .Extern _ _ => 5
  | .«Type» _ _ _ => 6
  | .StructUnit _ _ => 7
  | .StructTuple _ _ _ => 8
  | .StructNormal _ _ _ => 9
  | .Enum _ _ _ => 10
  | .Const _ _ _ => 11
  | .Static _ _ _ => 12
  | .Trait _ _ _ => 13
  | .ImplType _ _ _ => 14
  | .ImplTrait _ _ _ _ => 15

/-- The stored body of an `ItemKind::Func`, if any. -/
def ItemKind.funcBody : ItemKind → Option FuncBody
  | .Func _ b => some b
  | _ => none

/-- The stored initializer of an `ItemKind::Const` or `ItemKind::Static`,
if any. -/
def ItemKind.initVal : ItemKind → Option Expr
  | .Const _ _ v => some v
  | .Static _ _ v => some v
  | _ => none

mutual

theorem ty_beq_iff : ∀ a b : Ty, Ty.beq a b = true ↔ a = b
  | .Hole, b => by cases b <;> simp [Ty.beq]
  | .Diverging, b => by cases b <;> simp [Ty.beq]
  | .Apply a, b => by
      cases b <;> simp [Ty.beq]
      rw [tyApply_beq_iff a _]
  | .Tuple xs, b => by
      cases b <;> simp [Ty.beq]
      rw [ty_beqList_iff xs _]
  | .Func as r, b => by
      cases b <;> simp [Ty.beq]
      rw [ty_beqList_iff as _, ty_beq_iff r _]
  | .Ref m l i, b => by
      cases b <;> simp [Ty.beq]
      rw [ty_beq_iff i _]
      tauto
  | .Ptr m i, b => by
      cases b <;> simp [Ty.beq]
      rw [ty_beq_iff i _]
      tauto

theorem ty_beqList_iff : ∀ xs ys : List Ty, Ty.beqList xs ys = true ↔ xs = ys
  | [], ys => by cases ys <;> simp [Ty.beqList]
  | x :: xs, ys => by
      cases ys <;> simp [Ty.beqList]
      rw [ty_beq_iff x _, ty_beqList_iff xs _]

theorem ty_beqOptList_iff : ∀ xs ys : Option (List Ty),
    Ty.beqOptList xs ys = true ↔ xs = ys
  | none, ys => by cases ys <;> simp [Ty.beqOptList]
  | some xs, ys => by
      cases ys <;> simp [Ty.beqOptList]
      rw [ty_beqList_iff xs _]

theorem ty_beqOpt_iff : ∀ a b : Option Ty, Ty.beqOpt a b = true ↔ a = b
  | none, b => by cases b <;> simp [Ty.beqOpt]
  | some a, b => by
      cases b <;> simp [Ty.beqOpt]
      rw [ty_beq_iff a _]

theorem tyApply_beq_iff : ∀ a b : TyApply, TyApply.beq a b = true ↔ a = b
  | .mk n ls ps, .mk n' ls' ps' => by
      simp [TyApply.beq]
      rw [path_beq_iff n _, ty_beqList_iff ps _]
      tauto

theorem path_beq_iff : ∀ a b : Path, Path.beq a b = true ↔ a = b
  | .mk a cs, .mk a' cs' => by
      simp [Path.beq]
      rw [pathComp_beqList_iff cs _]
      tauto

theorem pathComp_beq_iff : ∀ a b : PathComp, PathComp.beq a b = true ↔ a = b
  | .mk b h, .mk b' h' => by
      simp [PathComp.beq]
      rw [ty_beqOptList_iff h _]
      tauto

theorem pathComp_beqList_iff : ∀ xs ys : List PathComp,
    PathComp.beqList xs ys = true ↔ xs = ys
  | [], ys => by cases ys <;> simp [PathComp.beqList]
  | x :: xs, ys => by
      cases ys <;> simp [PathComp.beqList]
      rw [pathComp_beq_iff x _, pathComp_beqList_iff xs _]

end

theorem beqListWith_iff_eq {α : Type} {f : α → α → Bool}
    (hf : ∀ a b, f a b = true ↔ a = b) :
    ∀ xs ys : List α, beqListWith f xs ys = true ↔ xs = ys
  | [], ys => by cases ys <;> simp [beqListWith]
  | x :: xs, ys => by
      cases ys with
      | nil => simp [beqListWith]
      | cons y ys => simp [beqListWith, hf x y, beqListWith_iff_eq hf xs ys]

theorem beqListWith_iff {α : Type} {f : α → α → Bool} {p : α → Bool}
    (hf : ∀ a b, f a b = true ↔ (p a = true ∧ p b = true ∧ a = b)) :
    ∀ xs ys : List α, beqListWith f xs ys = true ↔
      (xs.all p = true ∧ ys.all p = true ∧ xs = ys)
  | [], ys => by cases ys <;> simp [beqListWith]
  | x :: xs, ys => by
      cases ys with
      | nil => simp [beqListWith]
      | cons y ys =>
          simp [beqListWith, hf x y, beqListWith_iff hf xs ys]
          tauto

theorem beqOptionWith_iff {α : Type} {f : α → α → Bool} {p : α → Bool}
    (hf : ∀ a b, f a b = true ↔ (p a = true ∧ p b = true ∧ a = b)) :
    ∀ o o' : Option α, beqOptionWith f o o' = true ↔
      (o.all p = true ∧ o'.all p = true ∧ o = o')
  | none, o' => by cases o' <;> simp [beqOptionWith, Option.all]
  | some a, o' => by
      cases o' <;> simp [beqOptionWith, Option.all]
      rw [hf a _]

theorem traitBound_beq_iff : ∀ a b : TraitBound, TraitBound.beq a b = true ↔ a = b
  | .mk t ns, .mk t' ns' => by
      simp [TraitBound.beq, ty_beq_iff, beqListWith_iff_eq tyApply_beq_iff]

theorem template_beq_iff : ∀ a b : Template, Template.beq a b = true ↔ a = b
  | .mk ls ts bs, .mk ls' ts' bs' => by
      simp [Template.beq, beqListWith_iff_eq traitBound_beq_iff]
      tauto

theorem selfArg_beq_iff : ∀ a b : SelfArg, SelfArg.beq a b = true ↔ a = b
  | a, b => by cases a <;> cases b <;> simp [SelfArg.beq]

theorem funcArg_beq_iff : ∀ a b : FuncArg, FuncArg.beq a b = true ↔ a = b
  | .mk n t, .mk n' t' => by simp [FuncArg.beq, ty_beq_iff]

theorem funcSig_beq_iff : ∀ a b : FuncSig, FuncSig.beq a b = true ↔ a = b
  | .mk n t s args, .mk n' t' s' args' => by
      simp [FuncSig.beq, template_beq_iff, selfArg_beq_iff,
        beqListWith_iff_eq funcArg_beq_iff]
      tauto

theorem useName_beq_iff : ∀ a b : UseName, UseName.beq a b = true ↔ a = b
  | .mk n al, .mk n' al' => by simp [UseName.beq]

theorem fmax_beq_iff : ∀ a b : fmax,
    fmax.beq a b = true ↔ (a.isNaN = false ∧ b.isNaN = false ∧ a = b)
  | .mk n v, .mk n' v' => by
      simp [fmax.beq]
      constructor
      · rintro ⟨h1, h2, h3⟩
        simp_all
      · rintro ⟨h1, h2, h3⟩
        simp_all

theorem literal_beq_iff : ∀ a b : Literal,
    Literal.beq a b = true ↔
      (Literal.noNaN a = true ∧ Literal.noNaN b = true ∧ a = b)
  | .CharLike b c, x => by
      cases x <;> simp [Literal.beq, Literal.noNaN]
  | .StrLike b s, x => by
      cases x <;> simp [Literal.beq, Literal.noNaN]
  | .IntLike t v, x => by
      cases x <;> simp [Literal.beq, Literal.noNaN, ty_beqOpt_iff]
  | .FloatLike t v, x => by
      cases x <;> simp [Literal.beq, Literal.noNaN, ty_beqOpt_iff, fmax_beq_iff]
      tauto

mutual

theorem attr_beq_iff : ∀ a b : Attr,
    Attr.beq a b = true ↔ (Attr.noNaN a = true ∧ Attr.noNaN b = true ∧ a = b)
  | .Flag n, b => by
      cases b <;> simp [Attr.beq, Attr.noNaN]
  | .Value k v, b => by
      cases b <;> simp [Attr.beq, Attr.noNaN, literal_beq_iff]
      tauto
  | .Sub n xs, b => by
      cases b <;> simp [Attr.beq, Attr.noNaN]
      rw [attr_beqList_iff xs _]
      tauto

theorem attr_beqList_iff : ∀ xs ys : List Attr,
    Attr.beqList xs ys = true ↔
      (Attr.noNaNList xs = true ∧ Attr.noNaNList ys = true ∧ xs = ys)
  | [], ys => by cases ys <;> simp [Attr.beqList, Attr.noNaNList]
  | x :: xs, ys => by
      cases ys <;> simp [Attr.beqList, Attr.noNaNList]
      rw [attr_beq_iff x _, attr_beqList_iff xs _]
      tauto

end

mutual

theorem token_beq_iff : ∀ a b : Token,
    Token.beq a b = true ↔ (Token.noNaN a = true ∧ Token.noNaN b = true ∧ a = b)
  | .Delimited d ts, b => by
      cases b <;> simp [Token.beq, Token.noNaN]
      rw [token_beqList_iff ts _]
      tauto
  | .InnerDoc s, b => by cases b <;> simp [Token.beq, Token.noNaN]
  | .OuterDoc s, b => by cases b <;> simp [Token.beq, Token.noNaN]
  | .Keyword k, b => by cases b <;> simp [Token.beq, Token.noNaN]
  | .Ident s, b => by cases b <;> simp [Token.beq, Token.noNaN]
  | .Lifetime s, b => by cases b <;> simp [Token.beq, Token.noNaN]
  | .Symbol s, b => by cases b <;> simp [Token.beq, Token.noNaN]
  | .Literal l, b => by
      cases b <;> simp [Token.beq, Token.noNaN, literal_beq_iff]

theorem token_beqList_iff : ∀ xs ys : List Token,
    Token.beqList xs ys = true ↔
      (Token.noNaNList xs = true ∧ Token.noNaNList ys = true ∧ xs = ys)
  | [], ys => by cases ys <;> simp [Token.beqList, Token.noNaNList]
  | x :: xs, ys => by
      cases ys <;> simp [Token.beqList, Token.noNaNList]
      rw [token_beq_iff x _, token_beqList_iff xs _]
      tauto

end

theorem externFuncDecl_beq_iff : ∀ a b : ExternFuncDecl,
    ExternFuncDecl.beq a b = true ↔
      (ExternFuncDecl.noNaN a = true ∧ ExternFuncDecl.noNaN b = true ∧ a = b)
  | .mk s p at1, .mk s' p' at2 => by
      simp [ExternFuncDecl.beq, ExternFuncDecl.noNaN, funcSig_beq_iff,
        attr_beqList_iff]
      tauto

theorem structTupleElem_beq_iff : ∀ a b : StructTupleElem,
    StructTupleElem.beq a b = true ↔
      (StructTupleElem.noNaN a = true ∧ StructTupleElem.noNaN b = true ∧ a = b)
  | .mk p at1 t, .mk p' at2 t' => by
      simp [StructTupleElem.beq, StructTupleElem.noNaN, ty_beq_iff,
        attr_beqList_iff]
      tauto

theorem structField_beq_iff : ∀ a b : StructField,
    StructField.beq a b = true ↔
      (StructField.noNaN a = true ∧ StructField.noNaN b = true ∧ a = b)
  | .mk n p at1 t, .mk n' p' at2 t' => by
      simp [StructField.beq, StructField.noNaN, ty_beq_iff, attr_beqList_iff]
      tauto

theorem enumVar_beq_iff : ∀ a b : EnumVar,
    EnumVar.beq a b = true ↔
      (EnumVar.noNaN a = true ∧ EnumVar.noNaN b = true ∧ a = b)
  | .Unit n at1, b => by
      cases b <;> simp [EnumVar.beq, EnumVar.noNaN, attr_beqList_iff]
      tauto
  | .Tuple n at1 es, b => by
      cases b <;> simp [EnumVar.beq, EnumVar.noNaN, attr_beqList_iff,
        beqListWith_iff structTupleElem_beq_iff]
      tauto
  | .Struct n at1 fs, b => by
      cases b <;> simp [EnumVar.beq, EnumVar.noNaN, attr_beqList_iff,
        beqListWith_iff structField_beq_iff]
      tauto

theorem traitItem_beq_iff : ∀ a b : TraitItem,
    TraitItem.beq a b = true ↔
      (TraitItem.noNaN a = true ∧ TraitItem.noNaN b = true ∧ a = b)
  | .«Type» n at1 tb d, b => by
      cases b <;> simp [TraitItem.beq, TraitItem.noNaN, attr_beqList_iff,
        beqListWith_iff_eq tyApply_beq_iff, ty_beqOpt_iff]
      tauto
  | .Func s at1 d, b => by
      cases b <;> simp [TraitItem.beq, TraitItem.noNaN, attr_beqList_iff,
        funcSig_beq_iff, beqOptionWith_iff token_beqList_iff]
      tauto

theorem implItem_beq_iff : ∀ a b : ImplItem,
    ImplItem.beq a b = true ↔
      (ImplItem.noNaN a = true ∧ ImplItem.noNaN b = true ∧ a = b)
  | .«Type» n at1 v, b => by
      cases b <;> simp [ImplItem.beq, ImplItem.noNaN, attr_beqList_iff,
        ty_beq_iff]
      tauto
  | .Func s at1 bd, b => by
      cases b <;> simp [ImplItem.beq, ImplItem.noNaN, attr_beqList_iff,
        funcSig_beq_iff, token_beqList_iff]
      tauto

set_option maxHeartbeats 1600000 in
mutual

theorem item_beq_iff : ∀ a b : Item,
    Item.beq a b = true ↔ (Item.noNaN a = true ∧ Item.noNaN b = true ∧ a = b)
  | .mk p at1 d, .mk p' at2 d' => by
      simp [Item.beq, Item.noNaN, attr_beqList_iff]
      rw [itemKind_beq_iff d _]
      tauto

theorem itemKind_beq_iff : ∀ a b : ItemKind,
    ItemKind.beq a b = true ↔
      (ItemKind.noNaN a = true ∧ ItemKind.noNaN b = true ∧ a = b)
  | .ExternCrate n, b => by
      cases b <;> simp [ItemKind.beq, ItemKind.noNaN]
  | .UseAll p, b => by
      cases b <;> simp [ItemKind.beq, ItemKind.noNaN, path_beq_iff]
  | .UseSome p ns, b => by
      cases b <;> simp [ItemKind.beq, ItemKind.noNaN, path_beq_iff,
        beqListWith_iff_eq useName_beq_iff]
  | .Mod n its, b => by
      cases b <;> simp [ItemKind.beq, ItemKind.noNaN]
      rw [item_beqOptList_iff its _]
      tauto
  | .Func s bd, b => by
      cases b <;> simp [ItemKind.beq, ItemKind.noNaN, funcSig_beq_iff,
        token_beqList_iff]
      tauto
  | .Extern ab ds, b => by
      cases b <;> simp [ItemKind.beq, ItemKind.noNaN,
        beqListWith_iff externFuncDecl_beq_iff]
      tauto
  | .«Type» al t o, b => by
      cases b <;> simp [ItemKind.beq, ItemKind.noNaN, template_beq_iff,
        ty_beq_iff]
      tauto
  | .StructUnit n t, b => by
      cases b <;> simp [ItemKind.beq, ItemKind.noNaN, template_beq_iff]
  | .StructTuple n t es, b => by
      cases b <;> simp [ItemKind.beq, ItemKind.noNaN, template_beq_iff,
        beqListWith_iff structTupleElem_beq_iff]
      tauto
  | .StructNormal n t fs, b => by
      cases b <;> simp [ItemKind.beq, ItemKind.noNaN, template_beq_iff,
        beqListWith_iff structField_beq_iff]
      tauto
  | .Enum n t vs, b => by
      cases b <;> simp [ItemKind.beq, ItemKind.noNaN, template_beq_iff,
        beqListWith_iff enumVar_beq_iff]
      tauto
  | .Const n ty v, b => by
      cases b <;> simp [ItemKind.beq, ItemKind.noNaN, ty_beq_iff,
        token_beqList_iff]
      tauto
  | .Static n ty v, b => by
      cases b <;> simp [ItemKind.beq, ItemKind.noNaN, ty_beq_iff,
        token_beqList_iff]
      tauto
  | .Trait n t its, b => by
      cases b <;> simp [ItemKind.beq, ItemKind.noNaN, template_beq_iff,
        beqListWith_iff traitItem_beq_iff]
      tauto
  | .ImplType t tf its, b => by
      cases b <;> simp [ItemKind.beq, ItemKind.noNaN, template_beq_iff,
        ty_beq_iff, beqListWith_iff implItem_beq_iff]
      tauto
  | .ImplTrait t tn tf its, b => by
      cases b <;> simp [ItemKind.beq, ItemKind.noNaN, template_beq_iff,
        tyApply_beq_iff, ty_beq_iff, beqListWith_iff implItem_beq_iff]
      tauto

theorem item_beqList_iff : ∀ xs ys : List Item,
    Item.beqList xs ys = true ↔
      (Item.noNaNList xs = true ∧ Item.noNaNList ys = true ∧ xs = ys)
  | [], ys => by cases ys <;> simp [Item.beqList, Item.noNaNList]
  | x :: xs, ys => by
      cases ys <;> simp [Item.beqList, Item.noNaNList]
      rw [item_beq_iff x _, item_beqList_iff xs _]
      tauto

theorem item_beqOptList_iff : ∀ xs ys : Option (List Item),
    Item.beqOptList xs ys = true ↔
      (Item.noNaNOptList xs = true ∧ Item.noNaNOptList ys = true ∧ xs = ys)
  | none, ys => by cases ys <;> simp [Item.beqOptList, Item.noNaNOptList]
  | some xs, ys => by
      cases ys <;> simp [Item.beqOptList, Item.noNaNOptList]
      rw [item_beqList_iff xs _]

end

theorem modInner_beq_iff : ∀ a b : ModInner,
    ModInner.beq a b = true ↔
      (ModInner.noNaN a = true ∧ ModInner.noNaN b = true ∧ a = b)
  | .mk at1 is1, .mk at2 is2 => by
      simp [ModInner.beq, ModInner.noNaN, attr_beqList_iff, item_beqList_iff]
      tauto

/-- C1: structural equality on AST nodes (the derived `PartialEq`, embedded
as `beq`) is an equivalence relation — reflexive, symmetric and transitive —
over every variant of every node type, stated for `Literal` itself and for
`ModInner`, the root aggregate that transitively contains every node type,
under the precondition that the payload of every `Literal::FloatLike` node
is not NaN. -/
theorem structural_equality_is_equivalence :
    (∀ a : Literal, Literal.noNaN a = true → Literal.beq a a = true) ∧
    (∀ a b : Literal, Literal.noNaN a = true → Literal.noNaN b = true →
      Literal.beq a b = true → Literal.beq b a = true) ∧
    (∀ a b c : Literal, Literal.noNaN a = true → Literal.noNaN b = true →
      Literal.noNaN c = true → Literal.beq a b = true →
      Literal.beq b c = true → Literal.beq a c = true) ∧
    (∀ a : ModInner, ModInner.noNaN a = true → ModInner.beq a a = true) ∧
    (∀ a b : ModInner, ModInner.noNaN a = true → ModInner.noNaN b = true →
      ModInner.beq a b = true → ModInner.beq b a = true) ∧
    (∀ a b c : ModInner, ModInner.noNaN a = true → ModInner.noNaN b = true →
      ModInner.noNaN c = true → ModInner.beq a b = true →
      ModInner.beq b c = true → ModInner.beq a c = true) := by
  refine ⟨?_, ?_, ?_, ?_, ?_, ?_⟩
  · intro a h
    exact (literal_beq_iff a a).2 ⟨h, h, rfl⟩
  · intro a b ha hb h
    exact (literal_beq_iff b a).2 ⟨hb, ha, ((literal_beq_iff a b).1 h).2.2.symm⟩
  · intro a b c ha hb hc hab hbc
    exact (literal_beq_iff a c).2
      ⟨ha, hc, ((literal_beq_iff a b).1 hab).2.2.trans
        ((literal_beq_iff b c).1 hbc).2.2⟩
  · intro a h
    exact (modInner_beq_iff a a).2 ⟨h, h, rfl⟩
  · intro a b ha hb h
    exact (modInner_beq_iff b a).2 ⟨hb, ha, ((modInner_beq_iff a b).1 h).2.2.symm⟩
  · intro a b c ha hb hc hab hbc
    exact (modInner_beq_iff a c).2
      ⟨ha, hc, ((modInner_beq_iff a b).1 hab).2.2.trans
        ((modInner_beq_iff b c).1 hbc).2.2⟩

/-- Witness for C1: the equivalence properties applied at concrete nodes. -/
theorem structural_equality_is_equivalence_witness :
    Literal.beq (Literal.IntLike none 7) (Literal.IntLike none 7) = true ∧
    ModInner.beq (ModInner.mk [] []) (ModInner.mk [] []) = true :=
  ⟨structural_equality_is_equivalence.1 _ (by simp [Literal.noNaN]),
   structural_equality_is_equivalence.2.2.2.1 _
     (by simp [ModInner.noNaN, Attr.noNaNList, Item.noNaNList])⟩

/-- C2: no `Literal::FloatLike` node with a NaN payload can come to exist
through the literal-construction helper: the helper (modelled from the
spec, the lexer/grammar engine being outside the sources shown) rejects a
NaN source value before a node is produced, and every literal it does
produce satisfies the non-NaN precondition. -/
theorem float_literal_construction_guards_nan :
    (∀ (ty : Option Ty) (v : fmax), v.isNaN = true →
      mkFloatLiteral ty v = none) ∧
    (∀ (ty : Option Ty) (v : fmax) (l : Literal), mkFloatLiteral ty v = some l →
      Literal.noNaN l = true) := by
  constructor
  · intro ty v h
    simp [mkFloatLiteral, h]
  · intro ty v l h
    by_cases hv : v.isNaN = true
    · simp [mkFloatLiteral, hv] at h
    · simp [mkFloatLiteral, hv] at h
      rcases h with rfl
      simp_all [Literal.noNaN]

/-- Witness for C2: the helper rejects a NaN payload and accepts a non-NaN
payload, at concrete inputs. -/
theorem float_literal_construction_guards_nan_witness :
    mkFloatLiteral none (fmax.mk true 0) = none ∧
    Literal.noNaN (Literal.FloatLike none (fmax.mk false 1)) = true :=
  ⟨float_literal_construction_guards_nan.1 none (fmax.mk true 0) rfl,
   float_literal_construction_guards_nan.2 none (fmax.mk false 1) _ rfl⟩

/-- C3: for every path `p`, `Ty::from_path(p)` equals
`Ty::Apply(TyApply{ name: p, lifetimes: [], params: [] })`. -/
theorem from_path_spec (p : Path) :
    Ty.from_path p = Ty.Apply (TyApply.mk p [] []) := rfl

/-- C4: for every name `n`, `Ty::from_name(n)` equals `Ty::from_path`
applied to the relative path with the single component
`PathComp{ body: n, hint: None }`. -/
theorem from_name_spec (n : String) :
    Ty.from_name n = Ty.from_path (Path.mk false [PathComp.mk n none]) := rfl

/-- C5: `Ty::unit()` equals `Ty::Tuple([])`, and that value is distinct
from `Ty::Tuple([Ty::unit()])`, both propositionally and under the
embedded structural equality. -/
theorem unit_tuple_spec :
    Ty.unit = Ty.Tuple [] ∧ Ty.unit ≠ Ty.Tuple [Ty.unit] ∧
    Ty.beq Ty.unit (Ty.Tuple [Ty.unit]) = false := by
  refine ⟨rfl, ?_, ?_⟩
  · simp [Ty.unit]
  · simp [Ty.unit, Ty.beq, Ty.beqList]

/-- C6: `ItemKind` is a closed, tag-discriminated union of exactly 16
declaration shapes: every value is one of the 16 variants (an exhaustive
case split with no catch-all), and every one of the 16 discriminants is
realized by some value, so no further shape exists. -/
theorem itemkind_closed_sixteen_shapes :
    (∀ k : ItemKind,
      (∃ n, k = ItemKind.ExternCrate n) ∨
      (∃ p, k = ItemKind.UseAll p) ∨
      (∃ p ns, k = ItemKind.UseSome p ns) ∨
      (∃ n its, k = ItemKind.Mod n its) ∨
      (∃ s b, k = ItemKind.Func s b) ∨
      (∃ a ds, k = ItemKind.Extern a ds) ∨
      (∃ al t o, k = ItemKind.«Type» al t o) ∨
      (∃ n t, k = ItemKind.StructUnit n t) ∨
      (∃ n t es, k = ItemKind.StructTuple n t es) ∨
      (∃ n t fs, k = ItemKind.StructNormal n t fs) ∨
      (∃ n t vs, k = ItemKind.Enum n t vs) ∨
      (∃ n t v, k = ItemKind.Const n t v) ∨
      (∃ n t v, k = ItemKind.Static n t v) ∨
      (∃ n t its, k = ItemKind.Trait n t its) ∨
      (∃ t tf its, k = ItemKind.ImplType t tf its) ∨
      (∃ t tn tf its, k = ItemKind.ImplTrait t tn tf its)) ∧
    Function.Surjective ItemKind.tag := by
  constructor
  · intro k
    cases k <;> simp
  · intro i
    fin_cases i
    · exact ⟨ItemKind.ExternCrate "", rfl⟩
    · exact ⟨ItemKind.UseAll (Path.mk false []), rfl⟩
    · exact ⟨ItemKind.UseSome (Path.mk false []) [], rfl⟩
    · exact ⟨ItemKind.Mod "" none, rfl⟩
    · exact ⟨ItemKind.Func (FuncSig.mk "" (Template.mk [] [] [])
        SelfArg.Static []) [], rfl⟩
    · exact ⟨ItemKind.Extern none [], rfl⟩
    · exact ⟨ItemKind.«Type» "" (Template.mk [] [] []) Ty.Hole, rfl⟩
    · exact ⟨ItemKind.StructUnit "" (Template.mk [] [] []), rfl⟩
    · exact ⟨ItemKind.StructTuple "" (Template.mk [] [] []) [], rfl⟩
    · exact ⟨ItemKind.StructNormal "" (Template.mk [] [] []) [], rfl⟩
    · exact ⟨ItemKind.Enum "" (Template.mk [] [] []) [], rfl⟩
    · exact ⟨ItemKind.Const "" Ty.Hole [], rfl⟩
    · exact ⟨ItemKind.Static "" Ty.Hole [], rfl⟩
    · exact ⟨ItemKind.Trait "" (Template.mk [] [] []) [], rfl⟩
    · exact ⟨ItemKind.ImplType (Template.mk [] [] []) Ty.Hole [], rfl⟩
    · exact ⟨ItemKind.ImplTrait (Template.mk [] [] [])
        (TyApply.mk (Path.mk false []) [] []) Ty.Hole [], rfl⟩

/-- C7: `SelfArg` is a closed 3-state enumeration — no receiver, receiver
consumed by value with a mutability flag, receiver taken by reference with
a mutability flag — with no fourth or unknown state, the three states are
pairwise distinct, and any two signatures without a receiver (a free
function and a receiverless method) carry the same, indistinguishable
`SelfArg.Static`. -/
theorem selfarg_closed_three_states :
    (∀ s : SelfArg, s = SelfArg.Static ∨ (∃ m, s = SelfArg.Consume m) ∨
      (∃ m, s = SelfArg.Ref m)) ∧
    (∀ m, SelfArg.Consume m ≠ SelfArg.Static) ∧
    (∀ m, SelfArg.Ref m ≠ SelfArg.Static) ∧
    (∀ m m', SelfArg.Consume m ≠ SelfArg.Ref m') ∧
    (∀ f g : FuncSig, f.self_arg = SelfArg.Static →
      g.self_arg = SelfArg.Static → f.self_arg = g.self_arg) := by
  refine ⟨?_, ?_, ?_, ?_, ?_⟩
  · intro s
    cases s <;> simp
  · intro m
    simp
  · intro m
    simp
  · intro m m'
    simp
  · intro f g hf hg
    rw [hf, hg]

/-- Witness for C7: a free-function signature and a receiverless method
signature store the same `SelfArg.Static`. -/
theorem selfarg_closed_three_states_witness :
    (FuncSig.mk "free_fn" (Template.mk [] [] []) SelfArg.Static []).self_arg =
    (FuncSig.mk "method" (Template.mk [] [] []) SelfArg.Static []).self_arg :=
  selfarg_closed_three_states.2.2.2.2 _ _ rfl rfl

/-- C8: function bodies and const/static initializers are raw ordered token
sequences, not parsed expression trees: `FuncBody` and `Expr` are the same
type, `List Token`, and the `Func`, `Const` and `Static` item shapes store
their body/value in exactly that form. -/
theorem bodies_are_raw_token_sequences :
    (FuncBody = List Token) ∧ (Expr = List Token) ∧ (FuncBody = Expr) ∧
    (∀ (sig : FuncSig) (b : FuncBody), (ItemKind.Func sig b).funcBody = some b) ∧
    (∀ (n : String) (t : Ty) (v : Expr),
      (ItemKind.Const n t v).initVal = some v) ∧
    (∀ (n : String) (t : Ty) (v : Expr),
      (ItemKind.Static n t v).initVal = some v) :=
  ⟨rfl, rfl, rfl, fun _ _ => rfl, fun _ _ _ => rfl, fun _ _ _ => rfl⟩

/-- C9 (counterexample): the claim "for every TraitBound value the list of
trait names is non-empty" is false on the code: `TraitBound(Ty::Hole, [])`
is a well-typed value whose trait-name list is empty. -/
theorem traitbound_empty_counterexample :
    ¬ (∀ tb : TraitBound, tb.snd ≠ []) :=
  fun h => h (TraitBound.mk Ty.Hole []) rfl

/-- C9 (amended): every `TraitBound` pairs a constrained type with a list
of required trait names, but the list may be empty — the type does not
enforce non-emptiness. -/
theorem traitbound_pairs_type_and_traits :
    (∀ tb : TraitBound, ∃ t ns, tb = TraitBound.mk t ns) ∧
    (∃ tb : TraitBound, tb.snd = []) :=
  ⟨fun tb => ⟨tb.fst, tb.snd, rfl⟩, ⟨TraitBound.mk Ty.Hole [], rfl⟩⟩

/-- C10: in `ItemKind::Mod` the nested item list is optional: a module
declaration without a body (`items = none`) is representable, and it is
distinct from a module with an empty body (`items = some []`), both
propositionally and under the embedded structural equality. -/
theorem mod_optional_items_distinct (n : String) :
    ItemKind.Mod n none ≠ ItemKind.Mod n (some []) ∧
    ItemKind.beq (ItemKind.Mod n none) (ItemKind.Mod n (some [])) = false := by
  constructor
  · simp
  · simp [ItemKind.beq, Item.beqOptList]

end ast
